import Mathlib

/-!
Verification of the xhGen crosshair generator (src/main.rs) against its
specification.  The Rust `f64`/`f32` arithmetic is embedded over `ℚ`; the
trigonometric direction of a spoke angle, `(cos θ, sin θ)`, is abstracted as
an explicit pair of rational parameters `(ux, uy)` (the source computes it
with `to_radians`/`cos`/`sin`, which have no exact rational counterpart), so
"for every angle" becomes "for every direction vector".  File-system writes
performed by the batch generator are modelled as the returned list of
`(filename, document)` pairs, and the CSV file's content is passed as a
string.
-/

namespace XhGen

/-- One command of an SVG path datum, mirroring the `svg` crate's
`Data::move_to / line_to / quadratic_curve_to / close` calls used by the
source. -/
inductive PathCmd where
  | moveTo (p : ℚ × ℚ)
  | lineTo (p : ℚ × ℚ)
  | quadTo (ctrl p : ℚ × ℚ)
  | close
deriving DecidableEq, Repr

/-- An SVG `path` element as built by `bezier_spoke` and `generate_svg`:
the source sets attribute `d` in `bezier_spoke` and `fill` in
`generate_svg`; it never sets `stroke` on a spoke path. -/
structure SpokePathElem where
  d : List PathCmd
  fill : Option String
  stroke : Option String
deriving DecidableEq, Repr

/-- The `circle` element built by `generate_svg` (attributes `cx`, `cy`,
`r`, `stroke-width`, `stroke`, `fill`). -/
structure CircleElem where
  cx : ℚ
  cy : ℚ
  r : ℚ
  strokeWidth : ℚ
  stroke : String
  fill : String
deriving DecidableEq, Repr

/-- A node of the SVG document tree (`path`, `circle` or `g`). -/
inductive SvgNode where
  | path (p : SpokePathElem)
  | circle (c : CircleElem)
  | group (children : List SvgNode)

/-- The SVG document produced by `generate_svg`: `width`, `height`,
`viewBox` attributes and child nodes in insertion order. -/
structure SvgDocument where
  width : ℕ
  height : ℕ
  viewBox : String
  children : List SvgNode

/-- `CrosshairConfig` from src/main.rs.  `u32` becomes `ℕ`, the float
fields become `ℚ`, colors are `(u8, u8, u8, f32)` tuples becoming
`ℕ × ℕ × ℕ × ℚ`. -/
structure CrosshairConfig where
  size : ℕ
  ring_outer_radius : ℚ
  ring_thickness : ℚ
  rim_color : ℕ × ℕ × ℕ × ℚ
  arm_color : ℕ × ℕ × ℕ × ℚ
  gap_from_ring : ℚ
  center_gap_radius : ℚ
  spoke_base_width : ℚ
  spoke_tip_width : ℚ
  angles : List ℚ
  blur_radius : ℚ
  glow_radius : ℚ
deriving DecidableEq, Repr

/-- `fn ring_draw_radius`: `(ring_outer_radius - ring_thickness / 2.0).max(0.0)`. -/
def ring_draw_radius (config : CrosshairConfig) : ℚ :=
  max (config.ring_outer_radius - config.ring_thickness / 2) 0

/-- `fn ring_inner_radius`: `(ring_outer_radius - ring_thickness).max(0.0)`. -/
def ring_inner_radius (config : CrosshairConfig) : ℚ :=
  max (config.ring_outer_radius - config.ring_thickness) 0

/-- `fn spoke_base_radius`: `(ring_inner_radius(config) - gap_from_ring).max(0.0)`. -/
def spoke_base_radius (config : CrosshairConfig) : ℚ :=
  max (ring_inner_radius config - config.gap_from_ring) 0

/-- `fn spoke_tip_radius`: `config.center_gap_radius.max(0.0)`. -/
def spoke_tip_radius (config : CrosshairConfig) : ℚ :=
  max config.center_gap_radius 0

/-- `fn bezier_spoke` from src/main.rs.  The source receives `angle_deg` and
computes `ux = cos θ`, `uy = sin θ`; here the unit direction `(ux, uy)` is
taken as a parameter (trig abstraction, see the file header).  Everything
after that line is a direct transcription: `px = -uy`, `py = ux`, the tip
and base points, the two taper branches selected by `tip_width <= 0.01`,
and the resulting path data. -/
def bezier_spoke (cx cy ux uy tip_r base_r base_width tip_width : ℚ) :
    SpokePathElem :=
  let px := -uy
  let py := ux
  let tip_x := cx + tip_r * ux
  let tip_y := cy + tip_r * uy
  let base_x := cx + base_r * ux
  let base_y := cy + base_r * uy
  let base_half := base_width / 2
  let tip_half := tip_width / 2
  let bl_x := base_x - px * base_half
  let bl_y := base_y - py * base_half
  let br_x := base_x + px * base_half
  let br_y := base_y + py * base_half
  let data :=
    if tip_width ≤ 1/100 then
      -- Razor tip with gradual taper: shoulder -> mid -> pinch -> point.
      let dist := |base_r - tip_r|
      let shoulder_r := base_r - dist * (25/100)
      let mid_r := base_r - dist * (6/10)
      let pinch_r := base_r - dist * (9/10)
      let shoulder_half := base_half * (9/10)
      let mid_half := base_half * (6/10)
      let pinch_half := base_half * (18/100)
      let shoulder_x := cx + shoulder_r * ux
      let shoulder_y := cy + shoulder_r * uy
      let mid_x := cx + mid_r * ux
      let mid_y := cy + mid_r * uy
      let pinch_x := cx + pinch_r * ux
      let pinch_y := cy + pinch_r * uy
      let sr_x := shoulder_x + px * shoulder_half
      let sr_y := shoulder_y + py * shoulder_half
      let sl_x := shoulder_x - px * shoulder_half
      let sl_y := shoulder_y - py * shoulder_half
      let mr_x := mid_x + px * mid_half
      let mr_y := mid_y + py * mid_half
      let ml_x := mid_x - px * mid_half
      let ml_y := mid_y - py * mid_half
      let pr_x := pinch_x + px * pinch_half
      let pr_y := pinch_y + py * pinch_half
      let pl_x := pinch_x - px * pinch_half
      let pl_y := pinch_y - py * pinch_half
      [PathCmd.moveTo (bl_x, bl_y),
       PathCmd.lineTo (br_x, br_y),
       PathCmd.lineTo (sr_x, sr_y),
       PathCmd.quadTo ((sr_x + mr_x) / 2, (sr_y + mr_y) / 2) (mr_x, mr_y),
       PathCmd.quadTo ((mr_x + pr_x) / 2, (mr_y + pr_y) / 2) (pr_x, pr_y),
       PathCmd.quadTo ((pr_x + tip_x) / 2, (pr_y + tip_y) / 2) (tip_x, tip_y),
       PathCmd.quadTo ((pl_x + tip_x) / 2, (pl_y + tip_y) / 2) (pl_x, pl_y),
       PathCmd.quadTo ((ml_x + pl_x) / 2, (ml_y + pl_y) / 2) (ml_x, ml_y),
       PathCmd.quadTo ((sl_x + ml_x) / 2, (sl_y + ml_y) / 2) (sl_x, sl_y),
       PathCmd.lineTo (bl_x, bl_y),
       PathCmd.close]
    else
      let tl_x := tip_x - px * tip_half
      let tl_y := tip_y - py * tip_half
      let tr_x := tip_x + px * tip_half
      let tr_y := tip_y + py * tip_half
      let ctrl_br_x := (br_x + tr_x) / 2
      let ctrl_br_y := (br_y + tr_y) / 2
      let ctrl_bl_x := (bl_x + tl_x) / 2
      let ctrl_bl_y := (bl_y + tl_y) / 2
      [PathCmd.moveTo (bl_x, bl_y),
       PathCmd.lineTo (br_x, br_y),
       PathCmd.quadTo (ctrl_br_x, ctrl_br_y) (tr_x, tr_y),
       PathCmd.lineTo (tl_x, tl_y),
       PathCmd.quadTo (ctrl_bl_x, ctrl_bl_y) (bl_x, bl_y),
       PathCmd.close]
  { d := data, fill := none, stroke := none }

/-- Rust's `f32` `Display` prints integral values like `1.0` without a
fractional part.  Only integral alphas are exercised by the claims; a
non-integral rational is rendered in rational notation. -/
def fmtAlpha (a : ℚ) : String :=
  if a.den = 1 then toString a.num else toString a

/-- The `format!("rgba({},{},{},{})", r, g, b, a)` serialization used by
`generate_svg` for both colors. -/
def rgbaString (c : ℕ × ℕ × ℕ × ℚ) : String :=
  "rgba(" ++ toString c.1 ++ "," ++ toString c.2.1 ++ "," ++
    toString c.2.2.1 ++ "," ++ fmtAlpha c.2.2.2 ++ ")"

/-- `fn generate_svg` from src/main.rs.  `dirOf` abstracts
`angle_deg.to_radians()` followed by `cos`/`sin` (see the file header): it
maps an angle in degrees to the unit direction handed to `bezier_spoke`.
Everything else is a direct transcription: the center `(cx, cy)`, the
derived radii, the two serialized colors, the group of spoke paths built
over `config.angles` in order with attribute `fill`, and the trailing ring
circle. -/
def generate_svg (dirOf : ℚ → ℚ × ℚ) (config : CrosshairConfig) :
    SvgDocument :=
  let cx : ℚ := (config.size : ℚ) / 2
  let cy := cx
  let base_r := spoke_base_radius config
  let tip_r := spoke_tip_radius config
  let rim_color := rgbaString config.rim_color
  let arm_color := rgbaString config.arm_color
  let arms := SvgNode.group <| config.angles.map fun angle =>
    let u := dirOf angle
    let path := bezier_spoke cx cy u.1 u.2 tip_r base_r
      config.spoke_base_width config.spoke_tip_width
    SvgNode.path { path with fill := some arm_color }
  let ring := SvgNode.circle
    { cx := cx, cy := cy, r := ring_draw_radius config,
      strokeWidth := config.ring_thickness, stroke := rim_color,
      fill := "none" }
  { width := config.size, height := config.size,
    viewBox := "0 0 " ++ toString config.size ++ " " ++ toString config.size,
    children := [arms, ring] }

-- ------------------------------------------------------------
-- PREVIEW GEOMETRY
-- ------------------------------------------------------------

/-- `fn add_quad_samples` from src/main.rs: starting from the last point
already in the buffer, push `steps` samples of the quadratic Bezier with
control point `ctrl` and endpoint `e`, at parameters `t = i/steps` for
`i = 1..=steps`.  An empty buffer is returned unchanged (the source
`return`s). -/
def add_quad_samples (points : List (ℚ × ℚ)) (ctrl e : ℚ × ℚ)
    (steps : ℕ) : List (ℚ × ℚ) :=
  match points.getLast? with
  | none => points
  | some start =>
    points ++ (List.range steps).map fun i =>
      let t : ℚ := (i + 1 : ℕ) / steps
      let omt := 1 - t
      (omt * omt * start.1 + 2 * omt * t * ctrl.1 + t * t * e.1,
       omt * omt * start.2 + 2 * omt * t * ctrl.2 + t * t * e.2)

/-- `fn spoke_outline_points` from src/main.rs, the preview/raster-side
duplicate of `bezier_spoke` that flattens the outline to a point polygon
(each quadratic sampled with 6 steps).  As with `bezier_spoke` the unit
direction `(ux, uy)` of `angle_deg` is a parameter. -/
def spoke_outline_points (cx cy ux uy tip_r base_r base_width tip_width : ℚ) :
    List (ℚ × ℚ) :=
  let px := -uy
  let py := ux
  let tip_x := cx + tip_r * ux
  let tip_y := cy + tip_r * uy
  let base_x := cx + base_r * ux
  let base_y := cy + base_r * uy
  let base_half := base_width / 2
  let tip_half := tip_width / 2
  let bl_x := base_x - px * base_half
  let bl_y := base_y - py * base_half
  let br_x := base_x + px * base_half
  let br_y := base_y + py * base_half
  if tip_width ≤ 1/100 then
    let dist := |base_r - tip_r|
    let shoulder_r := base_r - dist * (25/100)
    let mid_r := base_r - dist * (6/10)
    let pinch_r := base_r - dist * (9/10)
    let shoulder_half := base_half * (9/10)
    let mid_half := base_half * (6/10)
    let pinch_half := base_half * (18/100)
    let shoulder_x := cx + shoulder_r * ux
    let shoulder_y := cy + shoulder_r * uy
    let mid_x := cx + mid_r * ux
    let mid_y := cy + mid_r * uy
    let pinch_x := cx + pinch_r * ux
    let pinch_y := cy + pinch_r * uy
    let sr_x := shoulder_x + px * shoulder_half
    let sr_y := shoulder_y + py * shoulder_half
    let sl_x := shoulder_x - px * shoulder_half
    let sl_y := shoulder_y - py * shoulder_half
    let mr_x := mid_x + px * mid_half
    let mr_y := mid_y + py * mid_half
    let ml_x := mid_x - px * mid_half
    let ml_y := mid_y - py * mid_half
    let pr_x := pinch_x + px * pinch_half
    let pr_y := pinch_y + py * pinch_half
    let pl_x := pinch_x - px * pinch_half
    let pl_y := pinch_y - py * pinch_half
    let pts := [(bl_x, bl_y), (br_x, br_y), (sr_x, sr_y)]
    let pts := add_quad_samples pts
      ((sr_x + mr_x) / 2, (sr_y + mr_y) / 2) (mr_x, mr_y) 6
    let pts := add_quad_samples pts
      ((mr_x + pr_x) / 2, (mr_y + pr_y) / 2) (pr_x, pr_y) 6
    let pts := add_quad_samples pts
      ((pr_x + tip_x) / 2, (pr_y + tip_y) / 2) (tip_x, tip_y) 6
    let pts := add_quad_samples pts
      ((pl_x + tip_x) / 2, (pl_y + tip_y) / 2) (pl_x, pl_y) 6
    let pts := add_quad_samples pts
      ((ml_x + pl_x) / 2, (ml_y + pl_y) / 2) (ml_x, ml_y) 6
    let pts := add_quad_samples pts
      ((sl_x + ml_x) / 2, (sl_y + ml_y) / 2) (sl_x, sl_y) 6
    pts ++ [(bl_x, bl_y)]
  else
    let tl_x := tip_x - px * tip_half
    let tl_y := tip_y - py * tip_half
    let tr_x := tip_x + px * tip_half
    let tr_y := tip_y + py * tip_half
    let ctrl_br_x := (br_x + tr_x) / 2
    let ctrl_br_y := (br_y + tr_y) / 2
    let ctrl_bl_x := (bl_x + tl_x) / 2
    let ctrl_bl_y := (bl_y + tl_y) / 2
    let pts := [(bl_x, bl_y), (br_x, br_y)]
    let pts := add_quad_samples pts (ctrl_br_x, ctrl_br_y) (tr_x, tr_y) 6
    let pts := pts ++ [(tl_x, tl_y)]
    let pts := add_quad_samples pts (ctrl_bl_x, ctrl_bl_y) (bl_x, bl_y) 6
    pts

-- ------------------------------------------------------------
-- CSV + COLOR PARSING
-- ------------------------------------------------------------

/-- Whitespace as recognised by Rust's `str::trim` / `char::is_whitespace`,
restricted to the ASCII range (the non-ASCII Unicode whitespace code points
are never exercised by the claims). -/
def wsChar (c : Char) : Bool :=
  c = ' ' || c = '\t' || c = '\n' || c = '\r' ||
    c = Char.ofNat 11 || c = Char.ofNat 12

/-- Left trim: `str::trim_start`. -/
def ltrimL (l : List Char) : List Char := l.dropWhile wsChar

/-- Right trim: `str::trim_end`. -/
def rtrimL (l : List Char) : List Char := (l.reverse.dropWhile wsChar).reverse

/-- `str::trim` on the character list. -/
def trimL (l : List Char) : List Char := ltrimL (rtrimL l)

/-- `str::trim` lifted to `String`. -/
def rustTrim (s : String) : String := String.mk (trimL s.data)

/-- `trim_start_matches('#')`: every leading `'#'` character is removed. -/
def dropHashes (l : List Char) : List Char := l.dropWhile (fun c => c = '#')

/-- `char::is_ascii_hexdigit`. -/
def isHexDigitCh (c : Char) : Bool :=
  ('0' ≤ c && c ≤ '9') || ('a' ≤ c && c ≤ 'f') || ('A' ≤ c && c ≤ 'F')

/-- `char::to_ascii_uppercase`. -/
def toAsciiUpperCh (c : Char) : Char :=
  if 'a' ≤ c && c ≤ 'z' then Char.ofNat (c.toNat - 32) else c

/-- `fn normalize_hex` from src/main.rs: trim whitespace, strip all leading
`'#'`, then require exactly 6 ASCII hex digits; on success return the
uppercased token, otherwise the `Invalid hex color` error with the original
raw text. -/
def normalize_hex (raw : String) : Except String String :=
  let trimmed := dropHashes (trimL raw.data)
  if trimmed.length ≠ 6 || !trimmed.all isHexDigitCh then
    Except.error ("Invalid hex color: " ++ raw)
  else
    Except.ok (String.mk (trimmed.map toAsciiUpperCh))

/-- Value of one ASCII hex digit (`u8::from_str_radix(_, 16)` accepts both
cases), written over the raw code point: digits are 48-57, lowercase
a-f are 97-102, uppercase A-F are 65-70. -/
def hexDigitVal (c : Char) : Option ℕ :=
  let n := c.toNat
  if 48 ≤ n && n ≤ 57 then some (n - 48)
  else if 97 ≤ n && n ≤ 102 then some (n - 87)
  else if 65 ≤ n && n ≤ 70 then some (n - 55)
  else none

/-- `u8::from_str_radix(&hex[i..i+2], 16)` on a two-character slice.  (The
leading `+` that `from_str_radix` would accept never passes
`normalize_hex`, whose output is `hex_to_rgb`'s only caller-supplied
input.) -/
def hexPairVal (a b : Char) : Option ℕ := do
  let va ← hexDigitVal a
  let vb ← hexDigitVal b
  pure (16 * va + vb)

/-- `fn hex_to_rgb` from src/main.rs: the three byte slices `hex[0..2]`,
`hex[2..4]`, `hex[4..6]` parsed base 16, with per-channel error messages.
(On input shorter than 6 bytes the Rust slice indexing would panic; that is
modelled as the length error below and is unreachable from
`parse_color_spec`, which validates the length first.) -/
def hex_to_rgb (hex : String) : Except String (ℕ × ℕ × ℕ) :=
  match hex.data with
  | a :: b :: c :: d :: e :: f :: [] =>
    match hexPairVal a b with
    | none => Except.error ("Invalid red in " ++ hex)
    | some r =>
      match hexPairVal c d with
      | none => Except.error ("Invalid green in " ++ hex)
      | some g =>
        match hexPairVal e f with
        | none => Except.error ("Invalid blue in " ++ hex)
        | some bb => Except.ok (r, g, bb)
  | _ => Except.error ("Invalid red in " ++ hex)

/-- `struct ColorSpec` from src/main.rs. -/
structure ColorSpec where
  rgb : ℕ × ℕ × ℕ
  hex : String
deriving DecidableEq, Repr

/-- `fn parse_color_spec` from src/main.rs (the two `?` operators written
as explicit matches). -/
def parse_color_spec (raw : String) : Except String ColorSpec :=
  match normalize_hex raw with
  | Except.error e => Except.error e
  | Except.ok hex =>
    match hex_to_rgb hex with
    | Except.error e => Except.error e
    | Except.ok rgb => Except.ok { rgb := rgb, hex := hex }

/-- `str::split_once(',')` on the character list: split at the first
occurrence of the separator. -/
def splitOnceCh (sep : Char) : List Char → Option (List Char × List Char)
  | [] => none
  | c :: rest =>
    if c = sep then some ([], rest)
    else (splitOnceCh sep rest).map fun p => (c :: p.1, p.2)

/-- `str::split_once(',')` lifted to `String`. -/
def splitOnce (sep : Char) (s : String) : Option (String × String) :=
  (splitOnceCh sep s.data).map fun p => (String.mk p.1, String.mk p.2)

/-- Split a character list at `'\n'` newlines (auxiliary for
`rustLines`). -/
def linesAux : List Char → List Char → List (List Char)
  | [], acc => [acc.reverse]
  | c :: rest, acc =>
    if c = '\n' then acc.reverse :: linesAux rest []
    else linesAux rest (c :: acc)

/-- Strip one trailing `'\r'` (Rust's `lines` treats `\r\n` as a line
terminator). -/
def stripCr (l : List Char) : List Char :=
  if l.getLast? = some '\r' then l.dropLast else l

/-- Rust's `str::lines()`: split at `'\n'`, strip a trailing `'\r'` from
each line, and do not yield a final empty line for a trailing newline. -/
def rustLines (s : String) : List String :=
  if s.data.isEmpty then []
  else
    let parts := linesAux s.data []
    let parts := if s.data.getLast? = some '\n' then parts.dropLast else parts
    parts.map fun l => String.mk (stripCr l)

/-- The `for (idx, line) in csv.lines().enumerate()` loop body of
`fn load_color_pairs`: skip the header line (`idx == 0`) and blank lines,
fail with the 1-based-numbered `Invalid row` error when the comma is
missing, otherwise parse both color tokens (whose errors propagate as-is)
and accumulate the pair. -/
def loadPairsAux : ℕ → List String → List (ColorSpec × ColorSpec) →
    Except String (List (ColorSpec × ColorSpec))
  | _, [], acc => Except.ok acc
  | idx, line :: rest, acc =>
    if idx = 0 then loadPairsAux (idx + 1) rest acc
    else if rustTrim line = "" then loadPairsAux (idx + 1) rest acc
    else
      match splitOnce ',' line with
      | none =>
        Except.error ("Invalid row " ++ toString (idx + 1) ++ ": " ++ line)
      | some (outer, inner) =>
        match parse_color_spec outer with
        | Except.error e => Except.error e
        | Except.ok o =>
          match parse_color_spec inner with
          | Except.error e => Except.error e
          | Except.ok i => loadPairsAux (idx + 1) rest (acc ++ [(o, i)])

/-- `fn load_color_pairs` from src/main.rs, taking the CSV file's text
content directly (the `fs::read_to_string` and the default-path seeding are
the I/O boundary). -/
def load_color_pairs (csv : String) :
    Except String (List (ColorSpec × ColorSpec)) :=
  loadPairsAux 0 (rustLines csv) []

/-- The per-pair configuration built inside `fn generate_batch_svgs`'s
loop: the cloned template with `rim_color` and `arm_color` overwritten by
the pair's RGB at alpha `1.0` (the loop mutates no other field). -/
def batch_cfg (template : CrosshairConfig) (rim arms : ColorSpec) :
    CrosshairConfig :=
  { template with
    rim_color := (rim.rgb.1, rim.rgb.2.1, rim.rgb.2.2, 1),
    arm_color := (arms.rgb.1, arms.rgb.2.1, arms.rgb.2.2, 1) }

/-- The `format!("xhMan_256px-rim-{}_arms-{}.svg", rim.hex, arms.hex)`
filename built by `fn generate_batch_svgs` (the `256` is a literal in the
source). -/
def batch_filename (rim arms : ColorSpec) : String :=
  "xhMan_256px-rim-" ++ rim.hex ++ "_arms-" ++ arms.hex ++ ".svg"

/-- `fn generate_batch_svgs` from src/main.rs: parse all color pairs
first (any parse error aborts before anything is written), then render one
SVG per pair.  File-system writes are modelled as the returned
`(filename, document)` list in loop order; `dirOf` is threaded to
`generate_svg` (trig abstraction). -/
def generate_batch_svgs (dirOf : ℚ → ℚ × ℚ) (config : CrosshairConfig)
    (csv : String) : Except String (List (String × SvgDocument)) :=
  match load_color_pairs csv with
  | Except.error e => Except.error e
  | Except.ok pairs =>
    Except.ok <| pairs.map fun pr =>
      (batch_filename pr.1 pr.2, generate_svg dirOf (batch_cfg config pr.1 pr.2))

/-- Whether one data row would parse: used to state batch abort claims. -/
def rowOk (line : String) : Bool :=
  match splitOnce ',' line with
  | none => false
  | some (outer, inner) =>
    (parse_color_spec outer).toOption.isSome &&
      (parse_color_spec inner).toOption.isSome

/-- The data rows `load_color_pairs` actually processes: every line after
the header that is not blank. -/
def dataRows (csv : String) : List String :=
  ((rustLines csv).drop 1).filter fun l => rustTrim l ≠ ""

/-- Does `pat` occur at the head of `l`? (substring machinery for the
line-number claims). -/
def chStarts : List Char → List Char → Bool
  | [], _ => true
  | _ :: _, [] => false
  | a :: as_, b :: bs => a = b && chStarts as_ bs

/-- Does `pat` occur anywhere in `l`? -/
def chHas (l pat : List Char) : Bool :=
  chStarts pat l ||
    match l with
    | [] => false
    | _ :: t => chHas t pat

/-- Substring containment on `String`. -/
def strContains (s pat : String) : Bool := chHas s.data pat.data

-- ------------------------------------------------------------
-- HELPER LEMMAS
-- ------------------------------------------------------------

lemma mem_add_quad_samples {p : ℚ × ℚ} {pts : List (ℚ × ℚ)} (h : p ∈ pts)
    (c e : ℚ × ℚ) (n : ℕ) : p ∈ add_quad_samples pts c e n := by
  unfold add_quad_samples
  split
  · exact h
  · exact List.mem_append_left _ h

lemma add_quad_samples_ne_nil {pts : List (ℚ × ℚ)} {c e : ℚ × ℚ} {n : ℕ}
    (h : pts ≠ []) : add_quad_samples pts c e n ≠ [] := by
  unfold add_quad_samples
  split
  · exact h
  · intro hc
    exact h (List.append_eq_nil.1 hc).1

lemma add_quad_samples_cons (a : ℚ × ℚ) (t : List (ℚ × ℚ)) (c e : ℚ × ℚ)
    (n : ℕ) : ∃ t', add_quad_samples (a :: t) c e n = a :: t' := by
  unfold add_quad_samples
  split
  · exact ⟨t, rfl⟩
  · exact ⟨_, List.cons_append _ _ _⟩

lemma end_mem_add_quad_samples6 {pts : List (ℚ × ℚ)} {c : ℚ × ℚ}
    (h : pts ≠ []) (e : ℚ × ℚ) : e ∈ add_quad_samples pts c e 6 := by
  obtain ⟨a, t, rfl⟩ := List.exists_cons_of_ne_nil h
  unfold add_quad_samples
  split
  · next heq => simp at heq
  · next heq =>
    refine List.mem_append.2 (Or.inr (List.mem_map.2 ⟨5, by decide, ?_⟩))
    norm_num

lemma bezier_spoke_closed (cx cy ux uy tip_r base_r bw tw : ℚ) :
    (bezier_spoke cx cy ux uy tip_r base_r bw tw).d.getLast? =
      some PathCmd.close := by
  unfold bezier_spoke
  dsimp only
  split <;> rfl

lemma length_dropWhile_le (p : Char → Bool) (l : List Char) :
    (l.dropWhile p).length ≤ l.length := by
  induction l with
  | nil => simp
  | cons a t ih =>
    rw [List.dropWhile_cons]
    split
    · exact le_trans ih (Nat.le_succ _)
    · exact le_refl _

lemma dropWhile_eq_self_of_length (p : Char → Bool) (l : List Char)
    (h : (l.dropWhile p).length = l.length) : l.dropWhile p = l := by
  induction l with
  | nil => simp
  | cons a t ih =>
    rw [List.dropWhile_cons]
    rw [List.dropWhile_cons] at h
    split
    · next hp =>
      rw [if_pos hp] at h
      exact absurd h (Nat.ne_of_lt (Nat.lt_succ_of_le (length_dropWhile_le p t)))
    · rfl

lemma rtrimL_cons_hash (l : List Char) : rtrimL ('#' :: l) = '#' :: rtrimL l := by
  unfold rtrimL
  rw [List.reverse_cons, List.dropWhile_append]
  split
  · next hemp =>
    rw [List.isEmpty_iff] at hemp
    rw [hemp]
    simp [wsChar]
  · simp

lemma trimL_cons_hash (l : List Char) : trimL ('#' :: l) = '#' :: rtrimL l := by
  unfold trimL ltrimL
  rw [rtrimL_cons_hash]
  rw [List.dropWhile_cons_of_neg (by simp [wsChar])]

lemma rtrimL_eq_self_of_trimL (l : List Char) (h : trimL l = l) :
    rtrimL l = l := by
  have h1 : (rtrimL l).length ≤ l.length := by
    unfold rtrimL
    rw [List.length_reverse]
    exact le_trans (length_dropWhile_le _ _) (by rw [List.length_reverse])
  have h2 : (trimL l).length ≤ (rtrimL l).length := length_dropWhile_le _ _
  rw [h] at h2
  have hlen : (rtrimL l).length = l.length := le_antisymm h1 h2
  unfold rtrimL at hlen ⊢
  rw [List.length_reverse] at hlen
  have := dropWhile_eq_self_of_length wsChar l.reverse
    (by rw [hlen, List.length_reverse])
  rw [this, List.reverse_reverse]

lemma loadPairsAux_error_of_bad :
    ∀ (lines : List String) (idx : ℕ) (acc : List (ColorSpec × ColorSpec)),
      idx ≠ 0 →
      (∃ line ∈ lines, rustTrim line ≠ "" ∧ rowOk line = false) →
      ∃ e, loadPairsAux idx lines acc = Except.error e := by
  intro lines
  induction lines with
  | nil =>
    intro idx acc _ h
    obtain ⟨line, hmem, _⟩ := h
    exact absurd hmem (List.not_mem_nil line)
  | cons l rest ih =>
    intro idx acc hidx h
    rw [loadPairsAux]
    rw [if_neg hidx]
    by_cases hblank : rustTrim l = ""
    · rw [if_pos hblank]
      obtain ⟨line, hmem, hnb, hbad⟩ := h
      rcases List.mem_cons.1 hmem with rfl | hmem'
      · exact absurd hblank hnb
      · exact ih (idx + 1) acc (Nat.succ_ne_zero idx) ⟨line, hmem', hnb, hbad⟩
    · rw [if_neg hblank]
      rcases hsp : splitOnce ',' l with _ | ⟨outer, inner⟩
      · exact ⟨_, rfl⟩
      · dsimp only
        rcases ho : parse_color_spec outer with eo | o
        · exact ⟨eo, rfl⟩
        · rcases hi : parse_color_spec inner with ei | i
          · exact ⟨ei, rfl⟩
          · obtain ⟨line, hmem, hnb, hbad⟩ := h
            rcases List.mem_cons.1 hmem with rfl | hmem'
            · rw [rowOk, hsp] at hbad
              simp [ho, hi, Except.toOption] at hbad
            · exact ih (idx + 1) (acc ++ [(o, i)]) (Nat.succ_ne_zero idx)
                ⟨line, hmem', hnb, hbad⟩

lemma chStarts_append (p r : List Char) : chStarts p (p ++ r) = true := by
  induction p with
  | nil => rfl
  | cons a t ih => simp [chStarts, ih]

lemma chHas_of_chStarts {l pat : List Char} (h : chStarts pat l = true) :
    chHas l pat = true := by
  unfold chHas
  cases l <;> simp [h]

lemma chHas_append_left (a : List Char) {m pat : List Char}
    (h : chHas m pat = true) : chHas (a ++ m) pat = true := by
  induction a with
  | nil => simpa using h
  | cons c t ih =>
    rw [List.cons_append]
    unfold chHas
    simp [ih]

lemma strContains_mid (a b c : String) :
    strContains (a ++ b ++ c) b = true := by
  unfold strContains
  have : (a ++ b ++ c).data = a.data ++ (b.data ++ c.data) := by
    simp [String.data_append, List.append_assoc]
  rw [this]
  exact chHas_append_left a.data
    (chHas_of_chStarts (by simpa using chStarts_append b.data c.data))

-- ------------------------------------------------------------
-- CLAIM THEOREMS
-- ------------------------------------------------------------

/-- C1: in razor taper mode (`spoke_tip_width ≤ 0.01`) the spoke outline of
`bezier_spoke` passes through the three intermediate cross-sections at
radii `base_r − 0.25·dist`, `base_r − 0.6·dist`, `base_r − 0.9·dist`
(`dist = |base_r − tip_r|`) with half-widths `0.9`, `0.6` and `0.18` times
`base_width/2`, and both sides converge to the exact tip point; for
`tip_width > 0.01` the outline is base-left, base-right, a quadratic to
tip-right with control the midpoint of base-right/tip-right, a line to
tip-left, and a quadratic back to base-left with control the midpoint of
base-left/tip-left.  (Here the base/tip corners are `base ± p·(width/2)`
with `p = (−uy, ux)` the perpendicular of the direction `(ux, uy)`.) -/
theorem bezier_spoke_taper_modes
    (cx cy ux uy tip_r base_r base_width tip_width : ℚ) :
    (tip_width ≤ 1/100 →
      (bezier_spoke cx cy ux uy tip_r base_r base_width tip_width).d =
        (let dist := |base_r - tip_r|
         let sR := base_r - 25/100 * dist
         let mR := base_r - 6/10 * dist
         let pR := base_r - 9/10 * dist
         let sH := 9/10 * (base_width / 2)
         let mH := 6/10 * (base_width / 2)
         let pH := 18/100 * (base_width / 2)
         let tip := ((cx + tip_r * ux, cy + tip_r * uy) : ℚ × ℚ)
         let bl := ((cx + base_r * ux + uy * (base_width / 2),
                     cy + base_r * uy - ux * (base_width / 2)) : ℚ × ℚ)
         let br := ((cx + base_r * ux - uy * (base_width / 2),
                     cy + base_r * uy + ux * (base_width / 2)) : ℚ × ℚ)
         let sr := ((cx + sR * ux - uy * sH, cy + sR * uy + ux * sH) : ℚ × ℚ)
         let sl := ((cx + sR * ux + uy * sH, cy + sR * uy - ux * sH) : ℚ × ℚ)
         let mr := ((cx + mR * ux - uy * mH, cy + mR * uy + ux * mH) : ℚ × ℚ)
         let ml := ((cx + mR * ux + uy * mH, cy + mR * uy - ux * mH) : ℚ × ℚ)
         let pr := ((cx + pR * ux - uy * pH, cy + pR * uy + ux * pH) : ℚ × ℚ)
         let pl := ((cx + pR * ux + uy * pH, cy + pR * uy - ux * pH) : ℚ × ℚ)
         let mid := fun (p q : ℚ × ℚ) => ((p.1 + q.1) / 2, (p.2 + q.2) / 2)
         [PathCmd.moveTo bl, PathCmd.lineTo br, PathCmd.lineTo sr,
          PathCmd.quadTo (mid sr mr) mr, PathCmd.quadTo (mid mr pr) pr,
          PathCmd.quadTo (mid pr tip) tip, PathCmd.quadTo (mid pl tip) pl,
          PathCmd.quadTo (mid ml pl) ml, PathCmd.quadTo (mid sl ml) sl,
          PathCmd.lineTo bl, PathCmd.close])) ∧
    (1/100 < tip_width →
      (bezier_spoke cx cy ux uy tip_r base_r base_width tip_width).d =
        (let bl := ((cx + base_r * ux + uy * (base_width / 2),
                     cy + base_r * uy - ux * (base_width / 2)) : ℚ × ℚ)
         let br := ((cx + base_r * ux - uy * (base_width / 2),
                     cy + base_r * uy + ux * (base_width / 2)) : ℚ × ℚ)
         let tl := ((cx + tip_r * ux + uy * (tip_width / 2),
                     cy + tip_r * uy - ux * (tip_width / 2)) : ℚ × ℚ)
         let tr := ((cx + tip_r * ux - uy * (tip_width / 2),
                     cy + tip_r * uy + ux * (tip_width / 2)) : ℚ × ℚ)
         let mid := fun (p q : ℚ × ℚ) => ((p.1 + q.1) / 2, (p.2 + q.2) / 2)
         [PathCmd.moveTo bl, PathCmd.lineTo br,
          PathCmd.quadTo (mid br tr) tr, PathCmd.lineTo tl,
          PathCmd.quadTo (mid bl tl) bl, PathCmd.close])) := by
  constructor
  · intro h
    simp only [bezier_spoke, if_pos h]
    ring_nf
  · intro h
    simp only [bezier_spoke, if_neg (not_le.2 h)]
    ring_nf

/-- C1 witness: both taper modes evaluated at a concrete direction
`(1, 0)`, `base_r = 10`, `base_width = 2`; tip widths `0` (razor) and `2`
(bevel). -/
theorem bezier_spoke_taper_modes_witness :
    (bezier_spoke 0 0 1 0 0 10 2 0).d =
      [PathCmd.moveTo (10, -1), PathCmd.lineTo (10, 1),
       PathCmd.lineTo (15/2, 9/10),
       PathCmd.quadTo (23/4, 3/4) (4, 3/5),
       PathCmd.quadTo (5/2, 39/100) (1, 9/50),
       PathCmd.quadTo (1/2, 9/100) (0, 0),
       PathCmd.quadTo (1/2, -9/100) (1, -9/50),
       PathCmd.quadTo (5/2, -39/100) (4, -3/5),
       PathCmd.quadTo (23/4, -3/4) (15/2, -9/10),
       PathCmd.lineTo (10, -1), PathCmd.close] ∧
    (bezier_spoke 0 0 1 0 0 10 2 2).d =
      [PathCmd.moveTo (10, -1), PathCmd.lineTo (10, 1),
       PathCmd.quadTo (5, 1) (0, 1), PathCmd.lineTo (0, -1),
       PathCmd.quadTo (5, -1) (10, -1), PathCmd.close] := by
  constructor
  · exact ((bezier_spoke_taper_modes 0 0 1 0 0 10 2 0).1 (by norm_num)).trans
      (by norm_num [Prod.ext_iff])
  · exact ((bezier_spoke_taper_modes 0 0 1 0 0 10 2 2).2 (by norm_num)).trans
      (by norm_num [Prod.ext_iff])

/-- C2: for every `Config` the four derived radii are
`max 0 (ring_outer_radius − ring_thickness/2)`,
`max 0 (ring_outer_radius − ring_thickness)`,
`max 0 (ring_inner_radius − gap_from_ring)` and
`max 0 center_gap_radius`, hence all non-negative; and any config with
`ring_outer_radius = 118`, `ring_thickness = 20`, `gap_from_ring = 10`
yields draw radius `108`, inner radius `98` and spoke base radius `88`. -/
theorem derived_radii_clamped :
    (∀ c : CrosshairConfig,
      ring_draw_radius c = max 0 (c.ring_outer_radius - c.ring_thickness / 2) ∧
      ring_inner_radius c = max 0 (c.ring_outer_radius - c.ring_thickness) ∧
      spoke_base_radius c = max 0 (ring_inner_radius c - c.gap_from_ring) ∧
      spoke_tip_radius c = max 0 c.center_gap_radius ∧
      0 ≤ ring_draw_radius c ∧ 0 ≤ ring_inner_radius c ∧
      0 ≤ spoke_base_radius c ∧ 0 ≤ spoke_tip_radius c) ∧
    (∀ c : CrosshairConfig, c.ring_outer_radius = 118 →
      c.ring_thickness = 20 → c.gap_from_ring = 10 →
      ring_draw_radius c = 108 ∧ ring_inner_radius c = 98 ∧
        spoke_base_radius c = 88) := by
  constructor
  · intro c
    refine ⟨max_comm _ _, max_comm _ _, max_comm _ _, max_comm _ _,
      ?_, ?_, ?_, ?_⟩ <;>
      simp [ring_draw_radius, ring_inner_radius, spoke_base_radius,
        spoke_tip_radius]
  · intro c h1 h2 h3
    refine ⟨?_, ?_, ?_⟩ <;>
      norm_num [ring_draw_radius, ring_inner_radius, spoke_base_radius,
        spoke_tip_radius, h1, h2, h3]

/-- C2 witness: the derived radii at a concrete config with
`ring_outer_radius = 118`, `ring_thickness = 20`, `gap_from_ring = 10`. -/
theorem derived_radii_clamped_witness :
    ring_draw_radius
        { size := 256, ring_outer_radius := 118, ring_thickness := 20,
          rim_color := (255, 255, 255, 1), arm_color := (0, 0, 0, 1),
          gap_from_ring := 10, center_gap_radius := 2,
          spoke_base_width := 12, spoke_tip_width := 3/2,
          angles := [45, 135, 225, 315], blur_radius := 1,
          glow_radius := 2 } = 108 ∧
    ring_inner_radius
        { size := 256, ring_outer_radius := 118, ring_thickness := 20,
          rim_color := (255, 255, 255, 1), arm_color := (0, 0, 0, 1),
          gap_from_ring := 10, center_gap_radius := 2,
          spoke_base_width := 12, spoke_tip_width := 3/2,
          angles := [45, 135, 225, 315], blur_radius := 1,
          glow_radius := 2 } = 98 ∧
    spoke_base_radius
        { size := 256, ring_outer_radius := 118, ring_thickness := 20,
          rim_color := (255, 255, 255, 1), arm_color := (0, 0, 0, 1),
          gap_from_ring := 10, center_gap_radius := 2,
          spoke_base_width := 12, spoke_tip_width := 3/2,
          angles := [45, 135, 225, 315], blur_radius := 1,
          glow_radius := 2 } = 88 :=
  derived_radii_clamped.2 _ rfl rfl rfl

/-- C3 counterexample: the claim says the preview/raster polygon consists
of the base corners and tip corners only.  At direction `(1, 0)`,
`tip_r = 0`, `base_r = 10`, `base_width = 2`, `tip_width = 0`, the base
corners are `(10, ∓1)` and both tip corners are `(0, 0)`, yet the polygon
contains the shoulder-right point `(7.5, 0.9)`, which is none of them. -/
theorem preview_polygon_corners_only_false :
    ((15/2 : ℚ), (9/10 : ℚ)) ∈ spoke_outline_points 0 0 1 0 0 10 2 0 ∧
      ((15/2 : ℚ), (9/10 : ℚ)) ∉
        [((10 : ℚ), (-1 : ℚ)), ((10 : ℚ), (1 : ℚ)), ((0 : ℚ), (0 : ℚ))] := by
  constructor
  · simp only [spoke_outline_points]
    rw [if_pos (by norm_num : (0 : ℚ) ≤ 1/100)]
    refine List.mem_append_left _ ?_
    refine mem_add_quad_samples (mem_add_quad_samples (mem_add_quad_samples
      (mem_add_quad_samples (mem_add_quad_samples (mem_add_quad_samples
        ?_ _ _ _) _ _ _) _ _ _) _ _ _) _ _ _) _ _ _
    norm_num [List.mem_cons, Prod.ext_iff]
  · norm_num [List.mem_cons, Prod.ext_iff]

/-- C3 (amended): the preview/raster backend does NOT reduce the spoke to
the base/tip-corner polygon; it flattens the full outline, so for
`tip_width ≤ 0.01` the polygon passes through the razor taper's shoulder,
mid and pinch cross-section points on both sides and through the exact
tip (each quadratic sampled at 6 points). -/
theorem preview_razor_sections
    (cx cy ux uy tip_r base_r base_width tip_width : ℚ)
    (h : tip_width ≤ 1/100) :
    (let dist := |base_r - tip_r|
     let sR := base_r - 25/100 * dist
     let mR := base_r - 6/10 * dist
     let pR := base_r - 9/10 * dist
     let sH := 9/10 * (base_width / 2)
     let mH := 6/10 * (base_width / 2)
     let pH := 18/100 * (base_width / 2)
     let pts := spoke_outline_points cx cy ux uy tip_r base_r base_width
       tip_width
     (cx + sR * ux - uy * sH, cy + sR * uy + ux * sH) ∈ pts ∧
     (cx + sR * ux + uy * sH, cy + sR * uy - ux * sH) ∈ pts ∧
     (cx + mR * ux - uy * mH, cy + mR * uy + ux * mH) ∈ pts ∧
     (cx + mR * ux + uy * mH, cy + mR * uy - ux * mH) ∈ pts ∧
     (cx + pR * ux - uy * pH, cy + pR * uy + ux * pH) ∈ pts ∧
     (cx + pR * ux + uy * pH, cy + pR * uy - ux * pH) ∈ pts ∧
     (cx + tip_r * ux, cy + tip_r * uy) ∈ pts) := by
  simp only [spoke_outline_points, if_pos h]
  ring_nf
  have hb : ∀ p q r : ℚ × ℚ, ([p, q, r] : List (ℚ × ℚ)) ≠ [] :=
    fun _ _ _ => List.cons_ne_nil _ _
  refine ⟨?_, ?_, ?_, ?_, ?_, ?_, ?_⟩
  · exact List.mem_append_left _ (mem_add_quad_samples (mem_add_quad_samples
      (mem_add_quad_samples (mem_add_quad_samples (mem_add_quad_samples
        (mem_add_quad_samples (by simp) _ _ _) _ _ _) _ _ _) _ _ _) _ _ _)
      _ _ _)
  · exact List.mem_append_left _ (end_mem_add_quad_samples6
      (add_quad_samples_ne_nil (add_quad_samples_ne_nil
        (add_quad_samples_ne_nil (add_quad_samples_ne_nil
          (add_quad_samples_ne_nil (hb _ _ _)))))) _)
  · exact List.mem_append_left _ (mem_add_quad_samples (mem_add_quad_samples
      (mem_add_quad_samples (mem_add_quad_samples (mem_add_quad_samples
        (end_mem_add_quad_samples6 (hb _ _ _) _) _ _ _) _ _ _) _ _ _) _ _ _)
      _ _ _)
  · exact List.mem_append_left _ (mem_add_quad_samples
      (end_mem_add_quad_samples6 (add_quad_samples_ne_nil
        (add_quad_samples_ne_nil (add_quad_samples_ne_nil
          (add_quad_samples_ne_nil (hb _ _ _))))) _) _ _ _)
  · exact List.mem_append_left _ (mem_add_quad_samples (mem_add_quad_samples
      (mem_add_quad_samples (mem_add_quad_samples
        (end_mem_add_quad_samples6 (add_quad_samples_ne_nil (hb _ _ _)) _)
        _ _ _) _ _ _) _ _ _) _ _ _)
  · exact List.mem_append_left _ (mem_add_quad_samples (mem_add_quad_samples
      (end_mem_add_quad_samples6 (add_quad_samples_ne_nil
        (add_quad_samples_ne_nil (add_quad_samples_ne_nil (hb _ _ _)))) _)
      _ _ _) _ _ _)
  · exact List.mem_append_left _ (mem_add_quad_samples (mem_add_quad_samples
      (mem_add_quad_samples (end_mem_add_quad_samples6
        (add_quad_samples_ne_nil (add_quad_samples_ne_nil (hb _ _ _))) _)
      _ _ _) _ _ _) _ _ _)

/-- C3 witness: the cross-section memberships at direction `(1, 0)`,
`tip_r = 0`, `base_r = 10`, `base_width = 2`, `tip_width = 0`. -/
theorem preview_razor_sections_witness :
    (let dist := |(10 : ℚ) - 0|
     let sR := 10 - 25/100 * dist
     let mR := 10 - 6/10 * dist
     let pR := 10 - 9/10 * dist
     let sH := (9 : ℚ)/10 * (2 / 2)
     let mH := (6 : ℚ)/10 * (2 / 2)
     let pH := (18 : ℚ)/100 * (2 / 2)
     let pts := spoke_outline_points 0 0 1 0 0 10 2 0
     ((0 : ℚ) + sR * 1 - 0 * sH, (0 : ℚ) + sR * 0 + 1 * sH) ∈ pts ∧
     ((0 : ℚ) + sR * 1 + 0 * sH, (0 : ℚ) + sR * 0 - 1 * sH) ∈ pts ∧
     ((0 : ℚ) + mR * 1 - 0 * mH, (0 : ℚ) + mR * 0 + 1 * mH) ∈ pts ∧
     ((0 : ℚ) + mR * 1 + 0 * mH, (0 : ℚ) + mR * 0 - 1 * mH) ∈ pts ∧
     ((0 : ℚ) + pR * 1 - 0 * pH, (0 : ℚ) + pR * 0 + 1 * pH) ∈ pts ∧
     ((0 : ℚ) + pR * 1 + 0 * pH, (0 : ℚ) + pR * 0 - 1 * pH) ∈ pts ∧
     ((0 : ℚ) + 0 * 1, (0 : ℚ) + 0 * 0) ∈ pts) :=
  preview_razor_sections 0 0 1 0 0 10 2 0 (by norm_num)

/-- C4: a parse error in the color-pair input aborts the whole batch:
`generate_batch_svgs` returns exactly the error of `load_color_pairs` and
writes nothing (the modelled write list is not produced); and any data row
that fails to parse — missing comma or invalid hex — makes
`load_color_pairs` return an error, so there is no partial success and no
row-skip-and-continue. -/
theorem batch_aborts_on_parse_error :
    (∀ (dirOf : ℚ → ℚ × ℚ) (config : CrosshairConfig) (csv e : String),
      load_color_pairs csv = Except.error e →
      generate_batch_svgs dirOf config csv = Except.error e) ∧
    (∀ csv : String, (∃ line ∈ dataRows csv, rowOk line = false) →
      ∃ e, load_color_pairs csv = Except.error e) := by
  constructor
  · intro dirOf config csv e h
    rw [generate_batch_svgs, h]
  · intro csv h
    obtain ⟨line, hmem, hbad⟩ := h
    unfold dataRows at hmem
    have hmem' := List.mem_filter.1 hmem
    have hnb : rustTrim line ≠ "" := by simpa using hmem'.2
    unfold load_color_pairs
    cases hl : rustLines csv with
    | nil =>
      rw [hl] at hmem'
      simp at hmem'
    | cons hd tl =>
      rw [loadPairsAux, if_pos rfl]
      refine loadPairsAux_error_of_bad tl 1 [] one_ne_zero ⟨line, ?_, hnb, hbad⟩
      rw [hl] at hmem'
      simpa using hmem'.1

/-- C4 witness: a batch whose second data row has invalid hex returns that
hex error and produces no write list, even though the row after it is
valid; and a row with a missing comma also makes `load_color_pairs`
error. -/
theorem batch_aborts_on_parse_error_witness :
    generate_batch_svgs (fun _ => (1, 0))
        { size := 256, ring_outer_radius := 118, ring_thickness := 20,
          rim_color := (255, 255, 255, 1), arm_color := (0, 0, 0, 1),
          gap_from_ring := 10, center_gap_radius := 2,
          spoke_base_width := 12, spoke_tip_width := 3/2, angles := [0],
          blur_radius := 1, glow_radius := 2 }
        ("hex1,hex2\nZZZZZZ,00FF00\nFF0000,00FF00") =
      Except.error ("Invalid hex color: ZZZZZZ") ∧
    ∃ e, load_color_pairs ("hex1,hex2\nFF000000FF00") = Except.error e :=
  ⟨batch_aborts_on_parse_error.1 _ _ _ _ rfl,
   batch_aborts_on_parse_error.2 _
     ⟨"FF000000FF00", by rw [show dataRows ("hex1,hex2\nFF000000FF00") =
         ["FF000000FF00"] from rfl]; exact List.mem_singleton.2 rfl, rfl⟩⟩

/-- C5 counterexample: the claim says the artifact is named
`xhMan_<size>px-...` with `<size>` the template's `size` field; but for a
template with `size = 512` the batch writes
`xhMan_256px-rim-FF0000_arms-00FF00.svg`, not the name the claim
predicts. -/
theorem batch_filename_size_mismatch :
    (generate_batch_svgs (fun _ => (1, 0))
        { size := 512, ring_outer_radius := 118, ring_thickness := 20,
          rim_color := (255, 255, 255, 1), arm_color := (0, 0, 0, 1),
          gap_from_ring := 10, center_gap_radius := 2,
          spoke_base_width := 12, spoke_tip_width := 3/2, angles := [0],
          blur_radius := 1, glow_radius := 2 }
        ("hex1,hex2\nFF0000,00FF00")).map (List.map Prod.fst) =
      Except.ok ["xhMan_256px-rim-FF0000_arms-00FF00.svg"] ∧
    ("xhMan_256px-rim-FF0000_arms-00FF00.svg" : String) ≠
      "xhMan_" ++ toString (512 : ℕ) ++ "px-rim-FF0000_arms-00FF00.svg" := by
  exact ⟨rfl, by decide⟩

/-- C5 (amended): for every template and every parsed color pair the
artifact name is literally `xhMan_256px-rim-<RIMHEX>_arms-<ARMHEX>.svg`
with the pair's canonical uppercase hex strings — the `256` is hard-coded
in the source and does not track the template's `size` field (the two
coincide only when `size = 256`). -/
theorem batch_filenames_literal_256 (dirOf : ℚ → ℚ × ℚ)
    (template : CrosshairConfig) (csv : String)
    (pairs : List (ColorSpec × ColorSpec))
    (h : load_color_pairs csv = Except.ok pairs) :
    (generate_batch_svgs dirOf template csv).map (List.map Prod.fst) =
      Except.ok (pairs.map fun pr =>
        "xhMan_256px-rim-" ++ pr.1.hex ++ "_arms-" ++ pr.2.hex ++ ".svg") := by
  rw [generate_batch_svgs, h]
  simp [Except.map, batch_filename]

/-- C5 witness: the filenames produced for a concrete two-row batch with a
size-256 template. -/
theorem batch_filenames_literal_256_witness :
    (generate_batch_svgs (fun _ => (1, 0))
        { size := 256, ring_outer_radius := 118, ring_thickness := 20,
          rim_color := (255, 255, 255, 1), arm_color := (0, 0, 0, 1),
          gap_from_ring := 10, center_gap_radius := 2,
          spoke_base_width := 12, spoke_tip_width := 3/2, angles := [0],
          blur_radius := 1, glow_radius := 2 }
        ("hex1,hex2\nFF0000,00FF00\n0000FF,FFFFFF")).map
        (List.map Prod.fst) =
      Except.ok
        (([({ rgb := (255, 0, 0), hex := "FF0000" },
            { rgb := (0, 255, 0), hex := "00FF00" }),
           ({ rgb := (0, 0, 255), hex := "0000FF" },
            { rgb := (255, 255, 255), hex := "FFFFFF" })] :
          List (ColorSpec × ColorSpec)).map fun pr =>
          "xhMan_256px-rim-" ++ pr.1.hex ++ "_arms-" ++ pr.2.hex ++ ".svg") :=
  batch_filenames_literal_256 _ _ _ _ rfl

/-- C6 counterexample: the claim says every rejected row's error is
qualified by its 1-based line number; but the invalid-hex row on line 2
is rejected with `Invalid hex color: ZZZZZZ`, a message that does not even
contain the digit string `2`. -/
theorem invalid_hex_error_lacks_line_number :
    load_color_pairs ("hex1,hex2\nZZZZZZ,00FF00") =
      Except.error ("Invalid hex color: ZZZZZZ") ∧
    strContains ("Invalid hex color: ZZZZZZ") (toString (2 : ℕ)) = false :=
  ⟨rfl, rfl⟩

/-- C6 (amended): only the missing-comma rejection carries the 1-based
line number — a non-blank data row reached at 0-based position `idx` with
no comma yields exactly `Invalid row (idx+1): line`, whose text contains
the line number — while an invalid hex token, whether the outer (first)
or the inner (second) token of the row, is rejected with that token's own
parse error, propagated unchanged and carrying no line number. -/
theorem row_error_line_numbering :
    (∀ (idx : ℕ) (line : String) (rest : List String)
        (acc : List (ColorSpec × ColorSpec)),
      idx ≠ 0 → rustTrim line ≠ "" → splitOnce ',' line = none →
      loadPairsAux idx (line :: rest) acc =
        Except.error ("Invalid row " ++ toString (idx + 1) ++ ": " ++ line) ∧
      strContains ("Invalid row " ++ toString (idx + 1) ++ ": " ++ line)
        (toString (idx + 1)) = true) ∧
    (∀ (idx : ℕ) (line outer inner : String) (rest : List String)
        (acc : List (ColorSpec × ColorSpec)) (e : String),
      idx ≠ 0 → rustTrim line ≠ "" →
      splitOnce ',' line = some (outer, inner) →
      parse_color_spec outer = Except.error e →
      loadPairsAux idx (line :: rest) acc = Except.error e) ∧
    (∀ (idx : ℕ) (line outer inner : String) (rest : List String)
        (acc : List (ColorSpec × ColorSpec)) (o : ColorSpec) (e : String),
      idx ≠ 0 → rustTrim line ≠ "" →
      splitOnce ',' line = some (outer, inner) →
      parse_color_spec outer = Except.ok o →
      parse_color_spec inner = Except.error e →
      loadPairsAux idx (line :: rest) acc = Except.error e) := by
  refine ⟨?_, ?_, ?_⟩
  · intro idx line rest acc hidx hnb hsp
    constructor
    · rw [loadPairsAux, if_neg hidx, if_neg hnb, hsp]
    · have : ("Invalid row " ++ toString (idx + 1) ++ ": " ++ line) =
          "Invalid row " ++ toString (idx + 1) ++ (": " ++ line) := by
        simp [String.append_assoc]
      rw [this]
      exact strContains_mid _ _ _
  · intro idx line outer inner rest acc e hidx hnb hsp hpe
    rw [loadPairsAux, if_neg hidx, if_neg hnb, hsp]
    dsimp only
    rw [hpe]
  · intro idx line outer inner rest acc o e hidx hnb hsp hpo hpe
    rw [loadPairsAux, if_neg hidx, if_neg hnb, hsp]
    dsimp only
    rw [hpo]
    dsimp only
    rw [hpe]

/-- C6 witness: a comma-less row at line 2 yields the line-numbered
`Invalid row 2` error; an invalid outer hex token at line 2 yields the
un-numbered hex error; and a row whose only invalid token is the inner
one likewise yields that token's un-numbered hex error. -/
theorem row_error_line_numbering_witness :
    (loadPairsAux 1 ["FF000000FF00"] [] =
        Except.error ("Invalid row " ++ toString (1 + 1) ++ ": " ++
          "FF000000FF00") ∧
      strContains ("Invalid row " ++ toString (1 + 1) ++ ": " ++
          "FF000000FF00") (toString (1 + 1)) = true) ∧
    loadPairsAux 1 ["ZZZZZZ,00FF00"] [] =
      Except.error ("Invalid hex color: ZZZZZZ") ∧
    loadPairsAux 1 ["00FF00,ZZZZZZ"] [] =
      Except.error ("Invalid hex color: ZZZZZZ") :=
  ⟨row_error_line_numbering.1 1 ("FF000000FF00") [] [] one_ne_zero
      (by decide) rfl,
   row_error_line_numbering.2.1 1 ("ZZZZZZ,00FF00") ("ZZZZZZ") ("00FF00")
      [] [] ("Invalid hex color: ZZZZZZ") one_ne_zero (by decide) rfl rfl,
   row_error_line_numbering.2.2 1 ("00FF00,ZZZZZZ") ("00FF00") ("ZZZZZZ")
      [] [] { rgb := (0, 255, 0), hex := "00FF00" }
      ("Invalid hex color: ZZZZZZ") one_ne_zero (by decide) rfl rfl rfl⟩

/-- C7: for every config, `generate_svg` yields a document whose `width`,
`height` and `viewBox` are `0 0 size size`, containing one group with one
filled closed path per entry of `angles` (fill the serialized
`rgba(r,g,b,a)` arm color, no stroke) followed by one circle centered at
`(size/2, size/2)` with radius `ring_draw_radius`, stroke width
`ring_thickness`, stroke the serialized rim color and fill `none`. -/
theorem generate_svg_document_structure (dirOf : ℚ → ℚ × ℚ)
    (c : CrosshairConfig) :
    (generate_svg dirOf c).width = c.size ∧
    (generate_svg dirOf c).height = c.size ∧
    (generate_svg dirOf c).viewBox =
      "0 0 " ++ toString c.size ++ " " ++ toString c.size ∧
    ∃ armNodes,
      (generate_svg dirOf c).children =
        [SvgNode.group armNodes,
         SvgNode.circle
           { cx := (c.size : ℚ) / 2, cy := (c.size : ℚ) / 2,
             r := ring_draw_radius c, strokeWidth := c.ring_thickness,
             stroke := rgbaString c.rim_color, fill := "none" }] ∧
      armNodes.length = c.angles.length ∧
      ∀ n ∈ armNodes, ∃ p : SpokePathElem,
        n = SvgNode.path p ∧ p.fill = some (rgbaString c.arm_color) ∧
        p.stroke = none ∧ p.d.getLast? = some PathCmd.close := by
  refine ⟨rfl, rfl, rfl, _, rfl, by simp [generate_svg], ?_⟩
  intro n hn
  simp only [generate_svg, List.mem_map] at hn
  obtain ⟨angle, _, rfl⟩ := hn
  exact ⟨_, rfl, rfl, rfl, bezier_spoke_closed _ _ _ _ _ _ _ _⟩

/-- C8: each rendered batch config differs from the template only in
`rim_color` and `arm_color`, whose RGB comes from the pair and whose alpha
is forced to `1.0` whatever the template's alpha; every other field is the
template's, and `generate_batch_svgs` renders exactly
`generate_svg` of `batch_cfg` per pair. -/
theorem batch_cfg_overrides_colors_only (template : CrosshairConfig)
    (rim arms : ColorSpec) (dirOf : ℚ → ℚ × ℚ) (csv : String) :
    (batch_cfg template rim arms).rim_color =
      (rim.rgb.1, rim.rgb.2.1, rim.rgb.2.2, 1) ∧
    (batch_cfg template rim arms).arm_color =
      (arms.rgb.1, arms.rgb.2.1, arms.rgb.2.2, 1) ∧
    (batch_cfg template rim arms).size = template.size ∧
    (batch_cfg template rim arms).ring_outer_radius =
      template.ring_outer_radius ∧
    (batch_cfg template rim arms).ring_thickness = template.ring_thickness ∧
    (batch_cfg template rim arms).gap_from_ring = template.gap_from_ring ∧
    (batch_cfg template rim arms).center_gap_radius =
      template.center_gap_radius ∧
    (batch_cfg template rim arms).spoke_base_width =
      template.spoke_base_width ∧
    (batch_cfg template rim arms).spoke_tip_width =
      template.spoke_tip_width ∧
    (batch_cfg template rim arms).angles = template.angles ∧
    (batch_cfg template rim arms).blur_radius = template.blur_radius ∧
    (batch_cfg template rim arms).glow_radius = template.glow_radius ∧
    generate_batch_svgs dirOf template csv =
      (load_color_pairs csv).map (fun pairs => pairs.map fun pr =>
        (batch_filename pr.1 pr.2,
         generate_svg dirOf (batch_cfg template pr.1 pr.2))) := by
  refine ⟨rfl, rfl, rfl, rfl, rfl, rfl, rfl, rfl, rfl, rfl, rfl, rfl, ?_⟩
  unfold generate_batch_svgs
  cases load_color_pairs csv <;> rfl

/-- C9: for every direction and `base_r > tip_r ≥ 0` the razor-taper
preview outline built with `spoke_tip_width = 0` is closed: its first
point equals its last point. -/
theorem razor_outline_closed (cx cy ux uy tip_r base_r base_width : ℚ)
    (h0 : 0 ≤ tip_r) (h1 : tip_r < base_r) :
    ∃ p, (spoke_outline_points cx cy ux uy tip_r base_r base_width 0).head? =
        some p ∧
      (spoke_outline_points cx cy ux uy tip_r base_r base_width 0).getLast? =
        some p := by
  simp only [spoke_outline_points]
  rw [if_pos (by norm_num : (0 : ℚ) ≤ 1/100)]
  obtain ⟨t1, e1⟩ := add_quad_samples_cons _ _ _ _ _
  rw [e1]
  obtain ⟨t2, e2⟩ := add_quad_samples_cons _ _ _ _ _
  rw [e2]
  obtain ⟨t3, e3⟩ := add_quad_samples_cons _ _ _ _ _
  rw [e3]
  obtain ⟨t4, e4⟩ := add_quad_samples_cons _ _ _ _ _
  rw [e4]
  obtain ⟨t5, e5⟩ := add_quad_samples_cons _ _ _ _ _
  rw [e5]
  obtain ⟨t6, e6⟩ := add_quad_samples_cons _ _ _ _ _
  rw [e6]
  exact ⟨_, rfl, List.getLast?_concat _⟩

/-- C9 witness: closedness at direction `(1, 0)`, `tip_r = 0`,
`base_r = 10`, `base_width = 2`. -/
theorem razor_outline_closed_witness :
    ∃ p, (spoke_outline_points 0 0 1 0 0 10 2 0).head? = some p ∧
      (spoke_outline_points 0 0 1 0 0 10 2 0).getLast? = some p :=
  razor_outline_closed 0 0 1 0 0 10 2 (by norm_num) (by norm_num)

/-- C10: `normalize_hex` strips every leading `'#'` after trimming (so
adding one more `'#'` in front of a trimmed input never changes the parse
result), `##ffaa00`, `#ffaa00` and `ffaa00` all normalize to `FFAA00` and
parse to RGB `(255, 170, 0)`, and any input whose trimmed, de-hashed
remainder is not exactly 6 ASCII hex digits is rejected. -/
theorem normalize_hex_hash_stripping :
    (∀ s : String, rustTrim s = s →
      (normalize_hex (String.mk ('#' :: s.data))).toOption =
        (normalize_hex s).toOption) ∧
    normalize_hex ("##ffaa00") = Except.ok ("FFAA00") ∧
    normalize_hex ("#ffaa00") = Except.ok ("FFAA00") ∧
    normalize_hex ("ffaa00") = Except.ok ("FFAA00") ∧
    parse_color_spec ("##ffaa00") =
      Except.ok { rgb := (255, 170, 0), hex := "FFAA00" } ∧
    (∀ s : String,
      ((dropHashes (trimL s.data)).length ≠ 6 ∨
        (dropHashes (trimL s.data)).all isHexDigitCh = false) →
      normalize_hex s = Except.error ("Invalid hex color: " ++ s)) := by
  refine ⟨?_, rfl, rfl, rfl, rfl, ?_⟩
  · intro s hs
    have hd : trimL s.data = s.data := congrArg String.data hs
    have hr : rtrimL s.data = s.data := rtrimL_eq_self_of_trimL _ hd
    have key : dropHashes (trimL ('#' :: s.data)) =
        dropHashes (trimL s.data) := by
      rw [trimL_cons_hash, hr, hd]
      unfold dropHashes
      rw [List.dropWhile_cons_of_pos (by simp)]
    simp only [normalize_hex, key]
    split
    · rfl
    · rfl
  · intro s h
    unfold normalize_hex
    rcases h with h | h
    · rw [if_pos (by simp [h])]
    · rw [if_pos (by simp [h])]

/-- C10 witness: adding a `'#'` in front of the already-trimmed `ffaa00`
does not change the parse, and the 5-digit `12345` is rejected. -/
theorem normalize_hex_hash_stripping_witness :
    (normalize_hex (String.mk ('#' :: ("ffaa00" : String).data))).toOption =
      (normalize_hex ("ffaa00")).toOption ∧
    normalize_hex ("12345") = Except.error ("Invalid hex color: " ++ "12345") :=
  ⟨normalize_hex_hash_stripping.1 ("ffaa00") rfl,
   normalize_hex_hash_stripping.2.2.2.2.2 ("12345") (Or.inl (by decide))⟩

end XhGen
